import Mathlib

/-!
Shallow embedding of the sample-controller reconciliation loop
(`controller.go`) and the InferenceJob API types (`types.go`).

Go strings are Lean `String`s; `*int32` pointers are `Option Int`;
the Kubernetes API clients are modelled as always-succeeding calls whose
effects are recorded in an explicit write trace; the event recorder is a
trace of emitted events.  A dereference of a nil `*int32` is modelled as
the `nilDeref` outcome of a sync.
-/

namespace SampleController

/-- An entry of `metadata.ownerReferences` (the fields `controller.go` uses:
kind, name, uid and the controller flag consulted by
`metav1.GetControllerOf`). -/
structure OwnerReference where
  kind : String
  name : String
  uid : String
  isController : Bool
deriving DecidableEq, Repr

/-- `InferenceJobSpec` from `types.go`: deploymentName, replicas (a nilable
pointer), imageToDeploy. -/
structure InferenceJobSpec where
  deploymentName : String
  replicas : Option Int
  imageToDeploy : String
deriving DecidableEq, Repr

/-- `InferenceJobStatus` from `types.go`. -/
structure InferenceJobStatus where
  availableReplicas : Int
deriving DecidableEq, Repr

/-- `InferenceJob` from `types.go`, with the object metadata the controller
reads (namespace, name, uid). -/
structure InferenceJob where
  ns : String
  name : String
  uid : String
  spec : InferenceJobSpec
  status : InferenceJobStatus
deriving DecidableEq, Repr

/-- The slice of `appsv1.DeploymentSpec` that `newDeployment` populates and
`syncHandler` reads: replicas (nilable), selector match labels, pod template
labels, and the single container's name and image. -/
structure DeploymentSpec where
  replicas : Option Int
  selectorMatchLabels : List (String × String)
  templateLabels : List (String × String)
  containerName : String
  containerImage : String
deriving DecidableEq, Repr

/-- The slice of `appsv1.DeploymentStatus` the controller reads. -/
structure DeploymentStatus where
  availableReplicas : Int
deriving DecidableEq, Repr

/-- `appsv1.Deployment`, restricted to the fields `controller.go` touches. -/
structure Deployment where
  ns : String
  name : String
  resourceVersion : String
  ownerReferences : List OwnerReference
  spec : DeploymentSpec
  status : DeploymentStatus
deriving DecidableEq, Repr

/-- The read-only informer caches: the lister views of InferenceJobs and
Deployments consulted by `syncHandler` and `handleObject`. -/
structure Cluster where
  inferenceJobs : List InferenceJob
  deployments : List Deployment
deriving DecidableEq, Repr

/-- A write call issued against the external API
(`Deployments(ns).Create/Update`, `InferenceJobs(ns).Update`). -/
inductive WriteCall where
  | createDeployment (ns : String) (d : Deployment)
  | updateDeployment (ns : String) (d : Deployment)
  | updateInferenceJob (ns : String) (job : InferenceJob)
deriving DecidableEq, Repr

/-- Does this write call create a Deployment? -/
def WriteCall.isDeploymentCreate : WriteCall → Bool
  | .createDeployment _ _ => true
  | _ => false

/-- Does this write call update a Deployment? -/
def WriteCall.isDeploymentUpdate : WriteCall → Bool
  | .updateDeployment _ _ => true
  | _ => false

/-- Does this write call update an InferenceJob? -/
def WriteCall.isJobUpdate : WriteCall → Bool
  | .updateInferenceJob _ _ => true
  | _ => false

/-- An event emitted through `c.recorder.Event(obj, type, reason, message)`. -/
structure Event where
  objName : String
  severity : String
  reason : String
  message : String
deriving DecidableEq, Repr

/-- `corev1.EventTypeNormal`. -/
def EventTypeNormal : String := "Normal"

/-- `corev1.EventTypeWarning`. -/
def EventTypeWarning : String := "Warning"

/-- The `SuccessSynced` event reason constant. -/
def SuccessSynced : String := "Synced"

/-- The `ErrResourceExists` event reason constant. -/
def ErrResourceExists : String := "ErrResourceExists"

/-- `fmt.Sprintf(MessageResourceExists, name)`: the `%q` verb wraps the name
in double quotes. -/
def MessageResourceExists (name : String) : String :=
  "Resource \"" ++ name ++ "\" already exists and is not managed by InferenceJob"

/-- The `MessageResourceSynced` message constant. -/
def MessageResourceSynced : String := "InferenceJob synced successfully"

/-- Lister lookup `inferenceJobsLister.InferenceJobs(ns).Get(name)`;
`none` models the IsNotFound error. -/
def getInferenceJob (cluster : Cluster) (ns name : String) : Option InferenceJob :=
  cluster.inferenceJobs.find? (fun j => j.ns == ns && j.name == name)

/-- Lister lookup `deploymentsLister.Deployments(ns).Get(name)`. -/
def getDeployment (cluster : Cluster) (ns name : String) : Option Deployment :=
  cluster.deployments.find? (fun d => d.ns == ns && d.name == name)

/-- Go `strings.Split` specialised to a one-character separator, on the
character list of the string: always returns a non-empty list of fields. -/
def goSplitChar (sep : Char) : List Char → List (List Char)
  | [] => [[]]
  | c :: cs =>
    if c = sep then [] :: goSplitChar sep cs
    else
      match goSplitChar sep cs with
      | [] => [[c]]
      | p :: ps => (c :: p) :: ps

/-- Go `strings.Split` for a one-character separator, on `String`s. -/
def stringsSplit (s : String) (sep : Char) : List String :=
  (goSplitChar sep s.data).map String.mk

/-- `strings.Split(s, sep)[0]` for a one-character separator. -/
def goSplitFirst (s : String) (sep : Char) : String :=
  String.mk ((goSplitChar sep s.data).headD [])

/-- `cache.SplitMetaNamespaceKey`: split on "/"; one part means name only,
two parts mean namespace and name, more is an error (`none`). -/
def SplitMetaNamespaceKey (key : String) : Option (String × String) :=
  match stringsSplit key '/' with
  | [n] => some ("", n)
  | [ns, n] => some (ns, n)
  | _ => none

/-- `cache.MetaNamespaceKeyFunc` on an object with this namespace and name. -/
def MetaNamespaceKeyFunc (ns name : String) : String :=
  if ns = "" then name else ns ++ "/" ++ name

/-- `metav1.GetControllerOf`: the first owner reference whose controller
flag is set. -/
def GetControllerOf (refs : List OwnerReference) : Option OwnerReference :=
  refs.find? (fun r => r.isController)

/-- `metav1.IsControlledBy(deployment, inferenceJob)`: the controlling owner
reference exists and its UID matches the owner's UID. -/
def IsControlledBy (d : Deployment) (job : InferenceJob) : Bool :=
  match GetControllerOf d.ownerReferences with
  | none => false
  | some ref => ref.uid == job.uid

/-- `metav1.NewControllerRef(inferenceJob, ...WithKind("InferenceJob"))`. -/
def NewControllerRef (job : InferenceJob) : OwnerReference :=
  { kind := "InferenceJob", name := job.name, uid := job.uid, isController := true }

/-- `newDeployment` from `controller.go`: the Deployment shape derived from
an InferenceJob — name from `Spec.DeploymentName`, same namespace, a
controller owner reference, replicas copied verbatim, the
`{app, controller}` labels on selector and template, and a single container
named after the image up to the first ":". -/
def newDeployment (inferenceJob : InferenceJob) : Deployment :=
  let labels : List (String × String) :=
    [("app", inferenceJob.spec.imageToDeploy), ("controller", inferenceJob.name)]
  { ns := inferenceJob.ns
    name := inferenceJob.spec.deploymentName
    resourceVersion := ""
    ownerReferences := [NewControllerRef inferenceJob]
    spec :=
      { replicas := inferenceJob.spec.replicas
        selectorMatchLabels := labels
        templateLabels := labels
        containerName := goSplitFirst inferenceJob.spec.imageToDeploy ':'
        containerImage := inferenceJob.spec.imageToDeploy }
    status := { availableReplicas := 0 } }

/-- Outcome of one `syncHandler` invocation: `ok` is a `nil` return, `err`
a non-nil (retryable) error, `nilDeref` a nil-pointer dereference (a Go panic). -/
inductive SyncResult where
  | ok
  | err (msg : String)
  | nilDeref
deriving DecidableEq, Repr

/-- The observable behaviour of one `syncHandler` invocation: its return
value, the write calls issued against the API, and the recorder events. -/
structure SyncOutput where
  result : SyncResult
  writes : List WriteCall
  events : List Event
deriving DecidableEq, Repr

/-- `updateInferenceJobStatus` from `controller.go`: deep-copy the cached
InferenceJob, set `Status.AvailableReplicas` from the Deployment's observed
status, and pass the copy to the InferenceJob update call.  The returned
object is the one handed to `InferenceJobs(ns).Update`. -/
def updateInferenceJobStatus (inferenceJob : InferenceJob) (deployment : Deployment) :
    InferenceJob :=
  { inferenceJob with
    status := { availableReplicas := deployment.status.availableReplicas } }

/-- The tail of `syncHandler` after the Deployment has been fetched or
created (`controller.go` lines 293–322): ownership check, replica
divergence check with possible Deployment update, status write-back and
success event.  `writes0` are the write calls already issued (the create,
when the Deployment was absent). -/
def syncTail (inferenceJob : InferenceJob) (deployment : Deployment)
    (writes0 : List WriteCall) : SyncOutput :=
  if ¬ IsControlledBy deployment inferenceJob then
    let msg := MessageResourceExists deployment.name
    { result := .err msg
      writes := writes0
      events := [⟨inferenceJob.name, EventTypeWarning, ErrResourceExists, msg⟩] }
  else
    let step : Option (Deployment × List WriteCall) :=
      match inferenceJob.spec.replicas with
      | none => some (deployment, writes0)
      | some r =>
        match deployment.spec.replicas with
        | none => none
        | some dr =>
          if r ≠ dr then
            let d2 := newDeployment inferenceJob
            some (d2, writes0 ++ [WriteCall.updateDeployment inferenceJob.ns d2])
          else
            some (deployment, writes0)
    match step with
    | none => { result := .nilDeref, writes := writes0, events := [] }
    | some (d, writes1) =>
      let copy := updateInferenceJobStatus inferenceJob d
      { result := .ok
        writes := writes1 ++ [WriteCall.updateInferenceJob inferenceJob.ns copy]
        events := [⟨inferenceJob.name, EventTypeNormal, SuccessSynced, MessageResourceSynced⟩] }

/-- `syncHandler` from `controller.go`: split the key, fetch the
InferenceJob from cache, validate `Spec.DeploymentName`, fetch or create
the Deployment, then run the convergence tail.  Malformed keys, missing
jobs and an empty deployment name all return `ok` (the error is absorbed)
with no writes.  The API calls are modelled as succeeding, with `Create`
returning the object it was given. -/
def syncHandler (cluster : Cluster) (key : String) : SyncOutput :=
  match SplitMetaNamespaceKey key with
  | none => { result := .ok, writes := [], events := [] }
  | some (ns, name) =>
    match getInferenceJob cluster ns name with
    | none => { result := .ok, writes := [], events := [] }
    | some inferenceJob =>
      let deploymentName := inferenceJob.spec.deploymentName
      if deploymentName = "" then
        { result := .ok, writes := [], events := [] }
      else
        match getDeployment cluster inferenceJob.ns deploymentName with
        | none =>
          let created := newDeployment inferenceJob
          syncTail inferenceJob created [WriteCall.createDeployment inferenceJob.ns created]
        | some deployment =>
          syncTail inferenceJob deployment []

/-- What the worker does with the key after `syncHandler` returns
(`processNextWorkItem`, `controller.go` lines 224–233): a non-nil error is
requeued with `AddRateLimited`, a nil return is `Forget`ten; a nil
dereference escapes the worker goroutine (`crash`). -/
inductive QueueAction where
  | forget
  | addRateLimited
  | crash
deriving DecidableEq, Repr

/-- The `processNextWorkItem` decision for one key against the cache. -/
def workerAction (cluster : Cluster) (key : String) : QueueAction :=
  match (syncHandler cluster key).result with
  | .ok => .forget
  | .err _ => .addRateLimited
  | .nilDeref => .crash

/-- `handleObject` from `controller.go`, after the live object has been
recovered (directly or from a tombstone): inspect the controlling owner
reference; discard when there is none, when its kind is not "InferenceJob",
or when the named InferenceJob is absent from the cache; otherwise enqueue
the InferenceJob's namespace/name key.  Returns the enqueued key. -/
def handleObject (cluster : Cluster) (obj : Deployment) : Option String :=
  match GetControllerOf obj.ownerReferences with
  | none => none
  | some ownerRef =>
    if ownerRef.kind ≠ "InferenceJob" then none
    else
      match getInferenceJob cluster obj.ns ownerRef.name with
      | none => none
      | some inferenceJob =>
        some (MetaNamespaceKeyFunc inferenceJob.ns inferenceJob.name)

/-- The Deployment `UpdateFunc` registered in `NewController`
(`controller.go` lines 131–140): identical resource versions are discarded
before `handleObject` is reached; otherwise the new object goes to
`handleObject`.  Returns the enqueued key. -/
def deploymentUpdateHandler (cluster : Cluster) (oldD newD : Deployment) :
    Option String :=
  if newD.resourceVersion == oldD.resourceVersion then none
  else handleObject cluster newD

/-! ## Lemmas about the Go string split -/

/-- `strings.Split` always yields at least one field. -/
theorem goSplitChar_ne_nil (sep : Char) (l : List Char) : goSplitChar sep l ≠ [] := by
  induction l with
  | nil => simp [goSplitChar]
  | cons c cs ih =>
    simp only [goSplitChar]
    split
    · simp
    · split
      · simp
      · simp

/-- The first field of `strings.Split` is the longest prefix free of the
separator. -/
theorem goSplitChar_headD (sep : Char) (l : List Char) :
    (goSplitChar sep l).headD [] = l.takeWhile (fun c => c != sep) := by
  induction l with
  | nil => rfl
  | cons c cs ih =>
    simp only [goSplitChar, List.takeWhile_cons]
    by_cases h : c = sep
    · simp [h]
    · rw [if_neg h]
      have hb : (c != sep) = true := by simp [h]
      rw [hb]
      cases hg : goSplitChar sep cs with
      | nil => exact absurd hg (goSplitChar_ne_nil sep cs)
      | cons p ps =>
        rw [hg] at ih
        simpa using ih

/-! ## Unfolding lemmas for the sync algorithm -/

/-- The sync tail on a Deployment not controlled by the InferenceJob:
warning event, retryable error, no further writes. -/
theorem syncTail_not_owned (job : InferenceJob) (d : Deployment)
    (writes0 : List WriteCall) (hown : IsControlledBy d job = false) :
    syncTail job d writes0 =
      { result := .err (MessageResourceExists d.name)
        writes := writes0
        events := [⟨job.name, EventTypeWarning, ErrResourceExists,
          MessageResourceExists d.name⟩] } := by
  simp [syncTail, hown]

/-- The sync tail on a correctly owned Deployment with no replica
divergence (nil desired replicas, or both replica pointers set and equal):
only the status write-back is appended. -/
theorem syncTail_converged (job : InferenceJob) (d : Deployment)
    (writes0 : List WriteCall) (hown : IsControlledBy d job = true)
    (hconv : job.spec.replicas = none ∨
      ∃ r, job.spec.replicas = some r ∧ d.spec.replicas = some r) :
    syncTail job d writes0 =
      { result := .ok
        writes := writes0 ++
          [WriteCall.updateInferenceJob job.ns (updateInferenceJobStatus job d)]
        events := [⟨job.name, EventTypeNormal, SuccessSynced,
          MessageResourceSynced⟩] } := by
  rcases hconv with hnil | ⟨r, hr, hdr⟩
  · simp [syncTail, hown, hnil]
  · simp [syncTail, hown, hr, hdr]

/-- The sync tail on a correctly owned Deployment whose replica count
diverges from the (non-nil) desired count: one Deployment update with the
recomputed shape, then the status write-back. -/
theorem syncTail_diverged (job : InferenceJob) (d : Deployment)
    (writes0 : List WriteCall) (r dr : Int) (hown : IsControlledBy d job = true)
    (hr : job.spec.replicas = some r) (hdr : d.spec.replicas = some dr)
    (hne : r ≠ dr) :
    syncTail job d writes0 =
      { result := .ok
        writes := writes0 ++
          [WriteCall.updateDeployment job.ns (newDeployment job),
           WriteCall.updateInferenceJob job.ns
             (updateInferenceJobStatus job (newDeployment job))]
        events := [⟨job.name, EventTypeNormal, SuccessSynced,
          MessageResourceSynced⟩] } := by
  simp [syncTail, hown, hr, hdr, hne]

/-- The sync tail dereferences a nil Deployment replica pointer when the
desired replicas are set. -/
theorem syncTail_nil_deref (job : InferenceJob) (d : Deployment)
    (writes0 : List WriteCall) (r : Int) (hown : IsControlledBy d job = true)
    (hr : job.spec.replicas = some r) (hdr : d.spec.replicas = none) :
    syncTail job d writes0 =
      { result := .nilDeref, writes := writes0, events := [] } := by
  simp [syncTail, hown, hr, hdr]

/-- `syncHandler` on a resolvable key whose InferenceJob exists, has a
deployment name, and whose Deployment is in cache: runs the tail with no
prior writes. -/
theorem syncHandler_existing (cluster : Cluster) (key ns name : String)
    (job : InferenceJob) (d : Deployment)
    (hkey : SplitMetaNamespaceKey key = some (ns, name))
    (hjob : getInferenceJob cluster ns name = some job)
    (hdn : job.spec.deploymentName ≠ "")
    (hdep : getDeployment cluster job.ns job.spec.deploymentName = some d) :
    syncHandler cluster key = syncTail job d [] := by
  simp [syncHandler, hkey, hjob, hdn, hdep]

/-- `syncHandler` on a resolvable key whose InferenceJob exists and has a
deployment name naming no cached Deployment: creates `newDeployment job`
and runs the tail on the created object. -/
theorem syncHandler_absent (cluster : Cluster) (key ns name : String)
    (job : InferenceJob)
    (hkey : SplitMetaNamespaceKey key = some (ns, name))
    (hjob : getInferenceJob cluster ns name = some job)
    (hdn : job.spec.deploymentName ≠ "")
    (hdep : getDeployment cluster job.ns job.spec.deploymentName = none) :
    syncHandler cluster key =
      syncTail job (newDeployment job)
        [WriteCall.createDeployment job.ns (newDeployment job)] := by
  simp [syncHandler, hkey, hjob, hdn, hdep]

/-- A freshly built Deployment is controlled by the InferenceJob it was
built from. -/
theorem IsControlledBy_newDeployment (job : InferenceJob) :
    IsControlledBy (newDeployment job) job = true := by
  simp [IsControlledBy, GetControllerOf, newDeployment, NewControllerRef]

/-! ## Claim theorems -/

/-- C8: the Deployment shape built by `newDeployment` copies the replicas
pointer verbatim (nil preserved), names the container after the portion of
`Spec.ImageToDeploy` preceding its first ":" separator, and puts exactly
the labels `{app: ImageToDeploy, controller: job name}` on both the
selector and the pod template. -/
theorem newDeployment_shape (job : InferenceJob) :
    (newDeployment job).spec.replicas = job.spec.replicas ∧
    (newDeployment job).spec.containerName
      = String.mk (job.spec.imageToDeploy.data.takeWhile (fun c => c != ':')) ∧
    (newDeployment job).spec.selectorMatchLabels
      = [("app", job.spec.imageToDeploy), ("controller", job.name)] ∧
    (newDeployment job).spec.templateLabels
      = [("app", job.spec.imageToDeploy), ("controller", job.name)] := by
  exact ⟨rfl, congrArg String.mk (goSplitChar_headD ':' job.spec.imageToDeploy.data),
    rfl, rfl⟩

/-- A converged fixture: `depC1` is exactly the Deployment `newDeployment`
derives from `jobC1` (same replicas, controlled by it), with its status
reporting the same available replicas the job status already records. -/
def jobC1 : InferenceJob :=
  { ns := "default", name := "job1", uid := "uid-1"
    spec := { deploymentName := "dep1", replicas := some 2, imageToDeploy := "img:v1" }
    status := { availableReplicas := 2 } }

/-- The Deployment of the converged C1 fixture. -/
def depC1 : Deployment :=
  { ns := "default", name := "dep1", resourceVersion := "7"
    ownerReferences := [NewControllerRef jobC1]
    spec := (newDeployment jobC1).spec
    status := { availableReplicas := 2 } }

/-- The cache of the converged C1 fixture. -/
def clusterC1 : Cluster := { inferenceJobs := [jobC1], deployments := [depC1] }

/-- C1 counterexample: on the fully converged state `clusterC1` (Deployment
present, controlled by the InferenceJob, equal replica counts, status
already up to date), `syncHandler` still issues a write call — the
unconditional InferenceJob status update.  The cache is unchanged between
invocations, so a second invocation in succession issues the same write,
refuting "no additional write calls on the second invocation". -/
theorem converged_sync_still_writes_status :
    IsControlledBy depC1 jobC1 = true ∧
    jobC1.spec.replicas = depC1.spec.replicas ∧
    jobC1.status.availableReplicas = depC1.status.availableReplicas ∧
    (syncHandler clusterC1 "default/job1").writes ≠ [] := by decide

/-- C1 (amended): on an already-converged state (Deployment present and
controlled, desired replicas nil or equal to the Deployment's), every
`syncHandler` invocation — in particular the second of two in succession
over the unchanged cache — issues no Deployment create or update call, but
still issues exactly one InferenceJob status update write, because the
status write-back is unconditional. -/
theorem syncHandler_converged_only_status_write (cluster : Cluster)
    (key ns name : String) (job : InferenceJob) (d : Deployment)
    (hkey : SplitMetaNamespaceKey key = some (ns, name))
    (hjob : getInferenceJob cluster ns name = some job)
    (hdn : job.spec.deploymentName ≠ "")
    (hdep : getDeployment cluster job.ns job.spec.deploymentName = some d)
    (hown : IsControlledBy d job = true)
    (hconv : job.spec.replicas = none ∨
      ∃ r, job.spec.replicas = some r ∧ d.spec.replicas = some r) :
    (syncHandler cluster key).result = .ok ∧
    (syncHandler cluster key).writes
      = [WriteCall.updateInferenceJob job.ns (updateInferenceJobStatus job d)] := by
  rw [syncHandler_existing cluster key ns name job d hkey hjob hdn hdep,
    syncTail_converged job d [] hown hconv]
  exact ⟨rfl, rfl⟩

/-- C1 witness: the amended theorem applied to the converged fixture. -/
theorem syncHandler_converged_only_status_write_witness :
    (syncHandler clusterC1 "default/job1").result = .ok ∧
    (syncHandler clusterC1 "default/job1").writes
      = [WriteCall.updateInferenceJob jobC1.ns (updateInferenceJobStatus jobC1 depC1)] :=
  syncHandler_converged_only_status_write clusterC1 "default/job1" "default" "job1"
    jobC1 depC1 (by decide) (by decide) (by decide) (by decide) (by decide)
    (Or.inr ⟨2, by decide, by decide⟩)

/-- C2: when the named Deployment exists but is not controlled by the
InferenceJob, one sync emits exactly one warning event on the InferenceJob,
returns a non-nil error, and issues no write calls at all. -/
theorem syncHandler_ownership_conflict (cluster : Cluster)
    (key ns name : String) (job : InferenceJob) (d : Deployment)
    (hkey : SplitMetaNamespaceKey key = some (ns, name))
    (hjob : getInferenceJob cluster ns name = some job)
    (hdn : job.spec.deploymentName ≠ "")
    (hdep : getDeployment cluster job.ns job.spec.deploymentName = some d)
    (hown : IsControlledBy d job = false) :
    (syncHandler cluster key).result = .err (MessageResourceExists d.name) ∧
    (syncHandler cluster key).writes = [] ∧
    (syncHandler cluster key).events
      = [⟨job.name, EventTypeWarning, ErrResourceExists,
          MessageResourceExists d.name⟩] := by
  rw [syncHandler_existing cluster key ns name job d hkey hjob hdn hdep,
    syncTail_not_owned job d [] hown]
  exact ⟨rfl, rfl, rfl⟩

/-- The C2 fixture: `depC2` carries a controller owner reference with a
different UID than `jobC2`. -/
def jobC2 : InferenceJob :=
  { ns := "default", name := "job2", uid := "uid-2"
    spec := { deploymentName := "dep2", replicas := some 1, imageToDeploy := "img:v2" }
    status := { availableReplicas := 0 } }

/-- The conflicting Deployment of the C2 fixture. -/
def depC2 : Deployment :=
  { ns := "default", name := "dep2", resourceVersion := "3"
    ownerReferences := [⟨"InferenceJob", "other-job", "uid-other", true⟩]
    spec := { replicas := some 1, selectorMatchLabels := [], templateLabels := []
              containerName := "c", containerImage := "c:1" }
    status := { availableReplicas := 1 } }

/-- The cache of the C2 fixture. -/
def clusterC2 : Cluster := { inferenceJobs := [jobC2], deployments := [depC2] }

/-- C2 witness: the conflict theorem applied to the C2 fixture. -/
theorem syncHandler_ownership_conflict_witness :
    (syncHandler clusterC2 "default/job2").result
      = .err (MessageResourceExists depC2.name) ∧
    (syncHandler clusterC2 "default/job2").writes = [] ∧
    (syncHandler clusterC2 "default/job2").events
      = [⟨jobC2.name, EventTypeWarning, ErrResourceExists,
          MessageResourceExists depC2.name⟩] :=
  syncHandler_ownership_conflict clusterC2 "default/job2" "default" "job2"
    jobC2 depC2 (by decide) (by decide) (by decide) (by decide) (by decide)

/-- C3: with non-nil desired replicas `r` and a correctly controlled
Deployment whose (non-nil) spec replicas `dr` differ, one sync issues
exactly one Deployment update call, and that update's spec sets replicas
to `r`. -/
theorem syncHandler_replica_divergence_update (cluster : Cluster)
    (key ns name : String) (job : InferenceJob) (d : Deployment) (r dr : Int)
    (hkey : SplitMetaNamespaceKey key = some (ns, name))
    (hjob : getInferenceJob cluster ns name = some job)
    (hdn : job.spec.deploymentName ≠ "")
    (hdep : getDeployment cluster job.ns job.spec.deploymentName = some d)
    (hown : IsControlledBy d job = true)
    (hr : job.spec.replicas = some r) (hdr : d.spec.replicas = some dr)
    (hne : r ≠ dr) :
    ((syncHandler cluster key).writes.filter WriteCall.isDeploymentUpdate)
      = [WriteCall.updateDeployment job.ns (newDeployment job)] ∧
    (newDeployment job).spec.replicas = some r ∧
    ((syncHandler cluster key).writes.filter WriteCall.isDeploymentCreate) = [] := by
  rw [syncHandler_existing cluster key ns name job d hkey hjob hdn hdep,
    syncTail_diverged job d [] r dr hown hr hdr hne]
  refine ⟨?_, ?_, ?_⟩
  · simp [WriteCall.isDeploymentUpdate]
  · simp [newDeployment, hr]
  · simp [WriteCall.isDeploymentCreate]

/-- The C3 fixture: desired replicas 3 against a Deployment at 1. -/
def jobC3 : InferenceJob :=
  { ns := "ml", name := "job3", uid := "uid-3"
    spec := { deploymentName := "dep3", replicas := some 3, imageToDeploy := "srv:2" }
    status := { availableReplicas := 1 } }

/-- The diverged Deployment of the C3 fixture. -/
def depC3 : Deployment :=
  { ns := "ml", name := "dep3", resourceVersion := "9"
    ownerReferences := [NewControllerRef jobC3]
    spec := { replicas := some 1, selectorMatchLabels := [], templateLabels := []
              containerName := "srv", containerImage := "srv:2" }
    status := { availableReplicas := 1 } }

/-- The cache of the C3 fixture. -/
def clusterC3 : Cluster := { inferenceJobs := [jobC3], deployments := [depC3] }

/-- C3 witness: the divergence theorem applied to the C3 fixture. -/
theorem syncHandler_replica_divergence_update_witness :
    ((syncHandler clusterC3 "ml/job3").writes.filter WriteCall.isDeploymentUpdate)
      = [WriteCall.updateDeployment jobC3.ns (newDeployment jobC3)] ∧
    (newDeployment jobC3).spec.replicas = some 3 ∧
    ((syncHandler clusterC3 "ml/job3").writes.filter WriteCall.isDeploymentCreate) = [] :=
  syncHandler_replica_divergence_update clusterC3 "ml/job3" "ml" "job3"
    jobC3 depC3 3 1 (by decide) (by decide) (by decide) (by decide) (by decide)
    (by decide) (by decide) (by decide)

/-- C4: with a non-empty deployment name naming no cached Deployment, one
sync issues exactly one Deployment create call; the created Deployment
carries the InferenceJob's deployment name, lives in the same namespace,
and has a controller owner reference of kind "InferenceJob" naming the
InferenceJob and carrying its UID. -/
theorem syncHandler_creates_missing_deployment (cluster : Cluster)
    (key ns name : String) (job : InferenceJob)
    (hkey : SplitMetaNamespaceKey key = some (ns, name))
    (hjob : getInferenceJob cluster ns name = some job)
    (hdn : job.spec.deploymentName ≠ "")
    (hdep : getDeployment cluster job.ns job.spec.deploymentName = none) :
    ((syncHandler cluster key).writes.filter WriteCall.isDeploymentCreate)
      = [WriteCall.createDeployment job.ns (newDeployment job)] ∧
    (newDeployment job).name = job.spec.deploymentName ∧
    (newDeployment job).ns = job.ns ∧
    GetControllerOf (newDeployment job).ownerReferences
      = some ⟨"InferenceJob", job.name, job.uid, true⟩ := by
  rw [syncHandler_absent cluster key ns name job hkey hjob hdn hdep]
  have hown := IsControlledBy_newDeployment job
  have htail : ∀ w0, ((syncTail job (newDeployment job) w0).writes.filter
      WriteCall.isDeploymentCreate) = w0.filter WriteCall.isDeploymentCreate := by
    intro w0
    rcases hr : job.spec.replicas with _ | r
    · rw [syncTail_converged job (newDeployment job) w0 hown (Or.inl hr)]
      simp [WriteCall.isDeploymentCreate]
    · rw [syncTail_converged job (newDeployment job) w0 hown
        (Or.inr ⟨r, hr, by simp [newDeployment, hr]⟩)]
      simp [WriteCall.isDeploymentCreate]
  refine ⟨?_, rfl, rfl, ?_⟩
  · rw [htail [WriteCall.createDeployment job.ns (newDeployment job)]]
    simp [WriteCall.isDeploymentCreate]
  · simp [newDeployment, GetControllerOf, NewControllerRef]

/-- The C4 fixture: an InferenceJob whose target Deployment is absent. -/
def jobC4 : InferenceJob :=
  { ns := "prod", name := "job4", uid := "uid-4"
    spec := { deploymentName := "dep4", replicas := some 2, imageToDeploy := "web:9" }
    status := { availableReplicas := 0 } }

/-- The cache of the C4 fixture (no Deployments at all). -/
def clusterC4 : Cluster := { inferenceJobs := [jobC4], deployments := [] }

/-- C4 witness: the creation theorem applied to the C4 fixture. -/
theorem syncHandler_creates_missing_deployment_witness :
    ((syncHandler clusterC4 "prod/job4").writes.filter WriteCall.isDeploymentCreate)
      = [WriteCall.createDeployment jobC4.ns (newDeployment jobC4)] ∧
    (newDeployment jobC4).name = jobC4.spec.deploymentName ∧
    (newDeployment jobC4).ns = jobC4.ns ∧
    GetControllerOf (newDeployment jobC4).ownerReferences
      = some ⟨"InferenceJob", jobC4.name, jobC4.uid, true⟩ :=
  syncHandler_creates_missing_deployment clusterC4 "prod/job4" "prod" "job4"
    jobC4 (by decide) (by decide) (by decide) (by decide)

/-- C5: the object `updateInferenceJobStatus` passes to the InferenceJob
write call is a copy of the cached InferenceJob that differs only in
`Status.AvailableReplicas`, which is set to the Deployment's observed
available replicas; namespace, name, uid and the whole spec are untouched.
The embedding is pure, so the cached object itself (the argument) is never
mutated — the write carries a distinct, locally built value. -/
theorem updateInferenceJobStatus_frame (job : InferenceJob) (d : Deployment) :
    (updateInferenceJobStatus job d).spec = job.spec ∧
    (updateInferenceJobStatus job d).ns = job.ns ∧
    (updateInferenceJobStatus job d).name = job.name ∧
    (updateInferenceJobStatus job d).uid = job.uid ∧
    (updateInferenceJobStatus job d).status.availableReplicas
      = d.status.availableReplicas :=
  ⟨rfl, rfl, rfl, rfl, rfl⟩

/-- The C6 fixture: desired replicas set, correctly owned Deployment whose
spec replicas pointer is nil. -/
def jobC6 : InferenceJob :=
  { ns := "default", name := "job6", uid := "uid-6"
    spec := { deploymentName := "dep6", replicas := some 2, imageToDeploy := "img:6" }
    status := { availableReplicas := 0 } }

/-- The nil-replica Deployment of the C6 fixture. -/
def depC6 : Deployment :=
  { ns := "default", name := "dep6", resourceVersion := "4"
    ownerReferences := [NewControllerRef jobC6]
    spec := { replicas := none, selectorMatchLabels := [], templateLabels := []
              containerName := "img", containerImage := "img:6" }
    status := { availableReplicas := 0 } }

/-- The cache of the C6 fixture. -/
def clusterC6 : Cluster := { inferenceJobs := [jobC6], deployments := [depC6] }

/-- C6: the replica-divergence test nil-checks only the InferenceJob's
replicas pointer; on a correctly owned Deployment whose own spec replicas
pointer is nil and an InferenceJob with replicas set, the comparison
dereferences the nil pointer — the embedding's `nilDeref` outcome is
reached on this concrete input, so the comparison is not nil-safe for all
owned Deployments. -/
theorem syncHandler_nil_deployment_replicas_deref :
    jobC6.spec.replicas ≠ none ∧
    IsControlledBy depC6 jobC6 = true ∧
    depC6.spec.replicas = none ∧
    syncHandler clusterC6 "default/job6"
      = { result := .nilDeref, writes := [], events := [] } := by decide

/-- C7: a malformed key, an InferenceJob absent from the cache, and an
empty `Spec.DeploymentName` all make `syncHandler` return nil with no
writes and no events, so `processNextWorkItem` calls `Forget` rather than
`AddRateLimited` and schedules no retry. -/
theorem syncHandler_absorbs_permanent_errors (cluster : Cluster) (key : String) :
    (SplitMetaNamespaceKey key = none →
      syncHandler cluster key = { result := .ok, writes := [], events := [] } ∧
      workerAction cluster key = .forget) ∧
    (∀ ns name, SplitMetaNamespaceKey key = some (ns, name) →
      getInferenceJob cluster ns name = none →
      syncHandler cluster key = { result := .ok, writes := [], events := [] } ∧
      workerAction cluster key = .forget) ∧
    (∀ ns name job, SplitMetaNamespaceKey key = some (ns, name) →
      getInferenceJob cluster ns name = some job →
      job.spec.deploymentName = "" →
      syncHandler cluster key = { result := .ok, writes := [], events := [] } ∧
      workerAction cluster key = .forget) := by
  refine ⟨fun h => ?_, fun ns name h hj => ?_, fun ns name job h hj hd => ?_⟩
  · constructor
    · simp [syncHandler, h]
    · simp [workerAction, syncHandler, h]
  · constructor
    · simp [syncHandler, h, hj]
    · simp [workerAction, syncHandler, h, hj]
  · constructor
    · simp [syncHandler, h, hj, hd]
    · simp [workerAction, syncHandler, h, hj, hd]

/-- The C7 fixture: an InferenceJob whose deployment name is empty. -/
def jobC7 : InferenceJob :=
  { ns := "default", name := "job7", uid := "uid-7"
    spec := { deploymentName := "", replicas := none, imageToDeploy := "img:7" }
    status := { availableReplicas := 0 } }

/-- The cache of the C7 fixture. -/
def clusterC7 : Cluster := { inferenceJobs := [jobC7], deployments := [] }

/-- C7 witness: all three drop cases on concrete inputs — the malformed key
"a/b/c", the absent job "default/ghost", and `jobC7` with its empty
deployment name. -/
theorem syncHandler_absorbs_permanent_errors_witness :
    (syncHandler clusterC7 "a/b/c" = { result := .ok, writes := [], events := [] } ∧
      workerAction clusterC7 "a/b/c" = .forget) ∧
    (syncHandler clusterC7 "default/ghost" = { result := .ok, writes := [], events := [] } ∧
      workerAction clusterC7 "default/ghost" = .forget) ∧
    (syncHandler clusterC7 "default/job7" = { result := .ok, writes := [], events := [] } ∧
      workerAction clusterC7 "default/job7" = .forget) :=
  ⟨(syncHandler_absorbs_permanent_errors clusterC7 "a/b/c").1 (by decide),
   (syncHandler_absorbs_permanent_errors clusterC7 "default/ghost").2.1
     "default" "ghost" (by decide) (by decide),
   (syncHandler_absorbs_permanent_errors clusterC7 "default/job7").2.2
     "default" "job7" jobC7 (by decide) (by decide) (by decide)⟩

/-- C9: `handleObject` discards objects with no controlling owner
reference, with a controlling reference of a kind other than
"InferenceJob", or whose named InferenceJob is missing from the cache —
enqueuing nothing and raising no error — and enqueues the InferenceJob's
namespace/name key when the lookup succeeds. -/
theorem handleObject_owner_resolution (cluster : Cluster) (obj : Deployment) :
    (GetControllerOf obj.ownerReferences = none → handleObject cluster obj = none) ∧
    (∀ ref, GetControllerOf obj.ownerReferences = some ref →
      ref.kind ≠ "InferenceJob" → handleObject cluster obj = none) ∧
    (∀ ref, GetControllerOf obj.ownerReferences = some ref →
      getInferenceJob cluster obj.ns ref.name = none →
      handleObject cluster obj = none) ∧
    (∀ ref job, GetControllerOf obj.ownerReferences = some ref →
      ref.kind = "InferenceJob" →
      getInferenceJob cluster obj.ns ref.name = some job →
      handleObject cluster obj = some (MetaNamespaceKeyFunc job.ns job.name)) := by
  refine ⟨fun h => ?_, fun ref h hk => ?_, fun ref h hl => ?_,
    fun ref job h hk hl => ?_⟩
  · simp [handleObject, h]
  · simp [handleObject, h, hk]
  · by_cases hk : ref.kind = "InferenceJob"
    · simp [handleObject, h, hk, hl]
    · simp [handleObject, h, hk]
  · simp [handleObject, h, hk, hl]

/-- The C9 fixture: an InferenceJob present in cache. -/
def jobC9 : InferenceJob :=
  { ns := "edge", name := "job9", uid := "uid-9"
    spec := { deploymentName := "dep9", replicas := none, imageToDeploy := "e:1" }
    status := { availableReplicas := 0 } }

/-- A Deployment controlled by `jobC9`. -/
def depC9 : Deployment :=
  { ns := "edge", name := "dep9", resourceVersion := "2"
    ownerReferences := [NewControllerRef jobC9]
    spec := { replicas := none, selectorMatchLabels := [], templateLabels := []
              containerName := "e", containerImage := "e:1" }
    status := { availableReplicas := 0 } }

/-- The cache of the C9 fixture. -/
def clusterC9 : Cluster := { inferenceJobs := [jobC9], deployments := [depC9] }

/-- C9 witness: the enqueue case on the C9 fixture. -/
theorem handleObject_owner_resolution_witness :
    handleObject clusterC9 depC9 = some (MetaNamespaceKeyFunc jobC9.ns jobC9.name) :=
  (handleObject_owner_resolution clusterC9 depC9).2.2.2
    (NewControllerRef jobC9) jobC9 (by decide) (by decide) (by decide)

/-- C10: the Deployment update handler discards the event (nothing reaches
`handleObject`, nothing is enqueued) when old and new resource versions are
identical, and otherwise behaves exactly as `handleObject` on the new
object. -/
theorem deploymentUpdateHandler_filter (cluster : Cluster) (oldD newD : Deployment) :
    (newD.resourceVersion = oldD.resourceVersion →
      deploymentUpdateHandler cluster oldD newD = none) ∧
    (newD.resourceVersion ≠ oldD.resourceVersion →
      deploymentUpdateHandler cluster oldD newD = handleObject cluster newD) := by
  constructor
  · intro h; simp [deploymentUpdateHandler, h]
  · intro h; simp [deploymentUpdateHandler, h]

/-- The C10 fixture: two versions of a Deployment differing only in
resource version. -/
def depC10a : Deployment :=
  { ns := "default", name := "dep10", resourceVersion := "1"
    ownerReferences := []
    spec := { replicas := none, selectorMatchLabels := [], templateLabels := []
              containerName := "c", containerImage := "c:1" }
    status := { availableReplicas := 0 } }

/-- The C10 fixture at a later resource version. -/
def depC10b : Deployment :=
  { depC10a with resourceVersion := "2" }

/-- C10 witness: the resync discard on identical versions and the
pass-through on differing versions, on concrete Deployments. -/
theorem deploymentUpdateHandler_filter_witness :
    deploymentUpdateHandler ⟨[], []⟩ depC10a depC10a = none ∧
    deploymentUpdateHandler ⟨[], []⟩ depC10a depC10b
      = handleObject ⟨[], []⟩ depC10b :=
  ⟨(deploymentUpdateHandler_filter ⟨[], []⟩ depC10a depC10a).1 rfl,
   (deploymentUpdateHandler_filter ⟨[], []⟩ depC10a depC10b).2 (by decide)⟩

end SampleController
